import Mathlib

/-!
Verification development for the go-run package: a wrapper around local
process spawning (os/exec) and remote command execution over SSH
(golang.org/x/crypto/ssh) that runs commands and captures stdout, stderr
and the exit code.

The Go sources are shallowly embedded: each executor method becomes a pure
Lean function over an explicit "world" record that supplies the outcomes of
the external effects the Go code performs (process start, pipe reads, wait
status, SSH dial, agent queries, file reads).  The control flow of each
function mirrors the Go source line by line; stateful parts (the Remote
session handle, the count of opened connections and sessions) are threaded
as an explicit state record.
-/

namespace run

/-- Model of a Go `error` value as the repository observes it: the code only
distinguishes the typed exit errors (`*exec.ExitError`, `*ssh.ExitError`)
from every other error, and otherwise uses the message text. -/
inductive GoError
  | exitError (message : String)
  | other (message : String)
  deriving DecidableEq, Repr

/-- Message text of an error, as Go `err.Error()` produces it. -/
def GoError.msg : GoError → String
  | .exitError m => m
  | .other m => m

/-- Result quadruple returned by `Run`, `Shell` and `exec`:
(stdout, stderr, exit code, error). -/
structure ExecResult where
  stdout : String
  stderr : String
  code : Int
  err : Option GoError
  deriving DecidableEq, Repr

/-- What the executor hands to the outside world to run:
either a direct argv (os/exec: the program sees exactly this vector, no
shell is involved), or a single flat command-line string submitted to an
SSH session (the remote side interprets it like a line typed at a remote
login shell). -/
inductive LaunchRequest
  | argvExec (path : String) (args : List String)
  | remoteCommandLine (line : String)
  deriving DecidableEq, Repr

/-- Observable events of one call, in the order the code performs them.
`start` is process creation / command submission; a drain is one
`ioutil.ReadAll` on a capture pipe (begin and end recorded separately);
`wait` is waiting for process or command termination. -/
inductive Ev
  | start
  | drainOutBegin
  | drainOutEnd
  | drainErrBegin
  | drainErrEnd
  | wait
  deriving DecidableEq, Repr

/-- DefaultShellExecutable is the shell run by the Shell() methods. -/
def DefaultShellExecutable : String := "/bin/sh"

/-- Strips an expected leading character sequence: `some rest` when the
second list is the first followed by `rest`, `none` otherwise. -/
def stripStem : List Char → List Char → Option (List Char)
  | [], rest => some rest
  | _ :: _, [] => none
  | c :: cs, d :: ds => if c = d then stripStem cs ds else none

/-- Model of `regexp.MustCompile("^" ++ stem ++ "([0-9]+)$").FindStringSubmatch msg`
for the two anchored patterns the code uses ("exit status " and
"Process exited with status "): the whole message must be the literal
stem followed by one or more digits; the digit substring is returned. -/
def matchAnchoredDigits (stem msg : String) : Option String :=
  match stripStem stem.data msg.data with
  | none => none
  | some rest =>
    if rest.length != 0 && rest.all Char.isDigit then
      some (String.mk rest)
    else
      none

/-- Numeric value of a digit string (no sign handling: the code only feeds
it strings of decimal digits captured by the regular expressions above). -/
def digitsVal (s : String) : Nat :=
  s.data.foldl (fun n c => n * 10 + (c.toNat - 48)) 0

/-- Model of Go `strconv.Atoi` restricted to all-digit inputs: succeeds with
the value unless it overflows a 64-bit signed int, in which case Go
returns a range error (modelled as `none`). -/
def atoi (s : String) : Option Nat :=
  let n := digitsVal s
  if n < 2 ^ 63 then some n else none

/-! ### Local executor -/

/-- LocalConfig mirrors the Go struct used to configure `NewLocal`.
Readers and writers are modelled by opaque identifiers: `none` is a nil
Go interface value (capture / null device), `some k` a caller-supplied
stream. -/
structure LocalConfig where
  shellExecutable : String
  env : List String
  dir : String
  stdin : Option Nat
  stdout : Option Nat
  stderr : Option Nat

/-- Local mirrors the Go `Local` struct. -/
structure Local where
  shellExecutable : String
  env : List String
  dir : String
  stdin : Option Nat
  stdout : Option Nat
  stderr : Option Nat

/-- Zero value of `Local`, as Go `new(Local)` produces it. -/
def Local.zero : Local :=
  { shellExecutable := "", env := [], dir := "", stdin := none,
    stdout := none, stderr := none }

/-- NewLocal, translated statement by statement from the Go source.  Note
the source sets `ShellExecutable` only when the configured value is empty
(there is no else branch), so a non-empty configured shell path is dropped
and the field keeps its zero value `""`. -/
def NewLocal (config : LocalConfig) : Local :=
  let l := Local.zero
  let l := if config.shellExecutable.length == 0 then
    { l with shellExecutable := DefaultShellExecutable }
  else
    l
  { l with
    env := config.env
    dir := config.dir
    stdin := config.stdin
    stdout := config.stdout
    stderr := config.stderr }

/-- Outcomes of the external effects one `Local.exec` call performs, in
source order: pipe creation, `cmd.Start()`, the two `ioutil.ReadAll`
drains (with the bytes the child writes to each stream), and
`cmd.Wait()` (`none` means the child exited with status 0). -/
structure LocalWorld where
  stdoutPipeErr : Option GoError
  stderrPipeErr : Option GoError
  startErr : Option GoError
  stdoutData : String
  stderrData : String
  stdoutReadErr : Option GoError
  stderrReadErr : Option GoError
  waitErr : Option GoError

/-- Everything observable about one `Local.exec` call: the launch request
handed to the OS, the returned quadruple, the bytes delivered to a
caller-supplied stdout/stderr sink (`none` when no sink is configured or
the child never started), and the event trace. -/
structure LocalOutcome where
  request : LaunchRequest
  res : ExecResult
  sinkOut : Option String
  sinkErr : Option String
  trace : List Ev
  deriving DecidableEq, Repr

/-- Local.exec, translated from the Go source.  `exec.Command(command,
args...)` passes the argument vector through verbatim, modelled as the
`argvExec` request.  Control flow (early returns, the case split on the
wait error, the regexp match and `strconv.Atoi`) follows the source. -/
def Local.exec (l : Local) (w : LocalWorld) (command : String)
    (args : List String) : LocalOutcome :=
  let request := LaunchRequest.argvExec command args
  -- StdoutPipe / StderrPipe are requested only when the stream is captured.
  if l.stdout.isNone && w.stdoutPipeErr.isSome then
    ⟨request, ⟨"", "", 0, w.stdoutPipeErr⟩, none, none, []⟩
  else if l.stderr.isNone && w.stderrPipeErr.isSome then
    ⟨request, ⟨"", "", 0, w.stderrPipeErr⟩, none, none, []⟩
  else
    match w.startErr with
    | some e => ⟨request, ⟨"", "", 0, some e⟩, none, none, []⟩
    | none =>
      -- Once started, a configured sink receives the child's whole stream.
      let sinkOut := l.stdout.map fun _ => w.stdoutData
      let sinkErr := l.stderr.map fun _ => w.stderrData
      if l.stdout.isNone && w.stdoutReadErr.isSome then
        ⟨request, ⟨"", "", 0, w.stdoutReadErr⟩, sinkOut, sinkErr,
          [Ev.start, Ev.drainOutBegin]⟩
      else
        let stdoutBuf := if l.stdout.isNone then w.stdoutData else ""
        let trOut : List Ev :=
          if l.stdout.isNone then [Ev.drainOutBegin, Ev.drainOutEnd] else []
        if l.stderr.isNone && w.stderrReadErr.isSome then
          ⟨request, ⟨"", "", 0, w.stderrReadErr⟩, sinkOut, sinkErr,
            [Ev.start] ++ trOut ++ [Ev.drainErrBegin]⟩
        else
          let stderrBuf := if l.stderr.isNone then w.stderrData else ""
          let trErr : List Ev :=
            if l.stderr.isNone then [Ev.drainErrBegin, Ev.drainErrEnd] else []
          let trace := [Ev.start] ++ trOut ++ trErr ++ [Ev.wait]
          match w.waitErr with
          | none => ⟨request, ⟨stdoutBuf, stderrBuf, 0, none⟩, sinkOut, sinkErr, trace⟩
          | some ge =>
            match ge with
            | .exitError msg =>
              match matchAnchoredDigits "exit status " msg with
              | some ds =>
                match atoi ds with
                | some n =>
                  ⟨request, ⟨stdoutBuf, stderrBuf, (n : Int), none⟩,
                    sinkOut, sinkErr, trace⟩
                | none =>
                  ⟨request,
                    ⟨"", "", 0, some (.other "strconv.Atoi: value out of range")⟩,
                    sinkOut, sinkErr, trace⟩
              | none =>
                -- match == nil: code stays 0 and the ExitError is returned.
                ⟨request, ⟨stdoutBuf, stderrBuf, 0, some (.exitError msg)⟩,
                  sinkOut, sinkErr, trace⟩
            | .other msg =>
              ⟨request, ⟨"", "", 0, some (.other msg)⟩, sinkOut, sinkErr, trace⟩

/-- Local.Run delegates to exec unchanged. -/
def Local.Run (l : Local) (w : LocalWorld) (cmd : String)
    (args : List String) : LocalOutcome :=
  l.exec w cmd args

/-- Local.Shell runs the configured shell with exactly the two arguments
"-c" and the caller's command line. -/
def Local.Shell (l : Local) (w : LocalWorld) (cmd : String) : LocalOutcome :=
  l.exec w l.shellExecutable ["-c", cmd]

/-- The package-level standard runner, `std = NewLocal(LocalConfig{})`. -/
def std : Local :=
  NewLocal { shellExecutable := "", env := [], dir := "", stdin := none,
             stdout := none, stderr := none }

/-- Package-level Run delegates to the standard runner. -/
def Run (w : LocalWorld) (cmd : String) (args : List String) : LocalOutcome :=
  std.Run w cmd args

/-- Package-level Shell delegates to the standard runner. -/
def Shell (w : LocalWorld) (cmd : String) : LocalOutcome :=
  std.Shell w cmd

/-! ### Remote executor -/

/-- Constant defaultSSHPort from the source. -/
def defaultSSHPort : Int := 22

/-- Constant defaultSSHHostname from the source. -/
def defaultSSHHostname : String := "localhost"

/-- Constant defaultSSHKeyfileName from the source. -/
def defaultSSHKeyfileName : String := "id_rsa"

/-- Credentials mirrors the Go struct. -/
structure Credentials where
  hostname : String
  port : Int
  username : String
  password : String
  privateKeyFilename : String
  deriving DecidableEq, Repr

/-- OS user database as the code consults it: `user.Current()` (the calling
account name, `none` when the lookup fails) and `user.Lookup(name).HomeDir`
(`none` when the lookup fails). -/
structure UserDB where
  currentUser : Option String
  lookupHome : String → Option String

/-- Model of `filepath.Join` for the components the source joins: empty
components are dropped and the rest are joined with "/".  The Clean pass
of the Go original (collapsing dot segments) is not modelled; the source
only joins a home directory with the literal components ".ssh" and
"id_rsa". -/
def filepathJoin (parts : List String) : String :=
  String.intercalate "/" (parts.filter fun p => p.length != 0)

/-- defaultPrivateKeyFilename from the source: look the user up and join
the home directory with ".ssh" and the conventional key file name. -/
def defaultPrivateKeyFilename (db : UserDB) (username : String) :
    Except GoError String :=
  match db.lookupHome username with
  | none => .error (.other ("user: unknown user " ++ username))
  | some home => .ok (filepathJoin [home, ".ssh", defaultSSHKeyfileName])

/-- RemoteConfig mirrors the Go struct. -/
structure RemoteConfig where
  shellExecutable : String
  stdin : Option Nat
  stdout : Option Nat
  stderr : Option Nat
  credentials : Credentials

/-- Remote mirrors the Go `Remote` struct.  The unexported `sshSession`
pointer field is modelled separately as part of `RemoteState`, because it
is the only mutable field and the claims are about its lifetime. -/
structure Remote where
  shellExecutable : String
  stdin : Option Nat
  stdout : Option Nat
  stderr : Option Nat
  credentials : Credentials

/-- NewRemote, translated statement by statement from the Go source.  The
two OS lookups it performs (current user, home directory of the effective
user) come from the `UserDB` oracle; either failure aborts construction. -/
def NewRemote (db : UserDB) (config : RemoteConfig) : Except GoError Remote :=
  let shell := if config.shellExecutable.length == 0 then
    DefaultShellExecutable
  else
    config.shellExecutable
  let creds := config.credentials
  let creds := if creds.hostname = "" then
    { creds with hostname := defaultSSHHostname }
  else
    creds
  let creds := if creds.port = 0 then { creds with port := defaultSSHPort } else creds
  let resolved : Except GoError Credentials :=
    if creds.username = "" then
      match db.currentUser with
      | none => .error (.other "user: lookup of current user failed")
      | some uname => .ok { creds with username := uname }
    else
      .ok creds
  match resolved with
  | .error e => .error e
  | .ok creds =>
    if creds.password = "" && creds.privateKeyFilename = "" then
      match defaultPrivateKeyFilename db creds.username with
      | .error e => .error e
      | .ok keyFilename =>
        .ok { shellExecutable := shell, stdin := config.stdin,
              stdout := config.stdout, stderr := config.stderr,
              credentials := { creds with privateKeyFilename := keyFilename } }
    else
      .ok { shellExecutable := shell, stdin := config.stdin,
            stdout := config.stdout, stderr := config.stderr,
            credentials := creds }

/-- SSH authentication methods the code can assemble.  Agent signers and
parsed keys are opaque identifiers supplied by the world. -/
inductive AuthMethod
  | password (pw : String)
  | publicKeysAgent (identities : List Nat)
  | publicKeys (key : Nat)
  deriving DecidableEq, Repr

/-- Outcomes of the effects `getSSHAuths` performs: the SSH_AUTH_SOCK
environment variable (empty when unset), dialling the agent socket, the
identities the agent offers, and reading and parsing key files. -/
structure AuthWorld where
  sshAuthSockEnv : String
  dialAgent : Option GoError
  agentSigners : Except GoError (List Nat)
  readFile : String → Except GoError String
  parsePrivateKey : String → Except GoError Nat

/-- Remote.getSSHAuths, translated from the Go source: password if
configured, else the agent when SSH_AUTH_SOCK is set, else the private
key file, whose read and parse failures are wrapped with the file path. -/
def Remote.getSSHAuths (r : Remote) (w : AuthWorld) :
    Except GoError (List AuthMethod) :=
  if r.credentials.password != "" then
    .ok [.password r.credentials.password]
  else if w.sshAuthSockEnv != "" then
    match w.dialAgent with
    | some e => .error e
    | none =>
      match w.agentSigners with
      | .error e => .error e
      | .ok signers => .ok [.publicKeysAgent signers]
  else
    match w.readFile r.credentials.privateKeyFilename with
    | .error e =>
      .error (.other ("run: could not read private key file \x27"
        ++ r.credentials.privateKeyFilename ++ "\x27: " ++ e.msg))
    | .ok keyBuf =>
      match w.parsePrivateKey keyBuf with
      | .error e =>
        .error (.other ("run: could not use private key file \x27"
          ++ r.credentials.privateKeyFilename ++ "\x27: " ++ e.msg))
      | .ok key => .ok [.publicKeys key]

/-- Outcomes of the external effects one `Remote.exec` call performs:
authentication material, `ssh.Dial`, `client.NewSession()`, the session
pipes, `sshSession.Run` (`none` means the remote command exited with
status 0), and the two capture drains. -/
structure RemoteWorld where
  auth : AuthWorld
  dial : Option GoError
  newSession : Option GoError
  stdoutPipeErr : Option GoError
  stderrPipeErr : Option GoError
  runErr : Option GoError
  stdoutData : String
  stderrData : String
  stdoutReadErr : Option GoError
  stderrReadErr : Option GoError

/-- Resource state around a Remote call: whether `r.sshSession` is non-nil,
and how many SSH client connections and sessions have been opened and not
closed so far. -/
structure RemoteState where
  sessionOpen : Bool
  openConns : Nat
  openSessions : Nat
  deriving DecidableEq, Repr

/-- Everything observable about one `Remote.exec` call, including the final
resource state. -/
structure RemoteOutcome where
  request : LaunchRequest
  res : ExecResult
  sinkOut : Option String
  sinkErr : Option String
  trace : List Ev
  state : RemoteState
  deriving Repr

/-- Remote.open, translated from the Go source (named doOpen because `open`
is a Lean keyword): build auth methods, dial, create a session.  A dial
failure is wrapped with user and host; a successful dial that fails at
NewSession leaves the client connection open (the source never closes the
client), recorded in the state. -/
def Remote.doOpen (r : Remote) (w : RemoteWorld) (st : RemoteState) :
    Option GoError × RemoteState :=
  match r.getSSHAuths w.auth with
  | .error e => (some e, st)
  | .ok _auths =>
    match w.dial with
    | some e =>
      (some (.other ("run: connection to " ++ r.credentials.username ++ "@"
        ++ r.credentials.hostname ++ " failed: " ++ e.msg)), st)
    | none =>
      let st := { st with openConns := st.openConns + 1 }
      match w.newSession with
      | some e => (some e, { st with sessionOpen := false })
      | none =>
        (none, { st with sessionOpen := true, openSessions := st.openSessions + 1 })

/-- Remote.close, translated from the Go source: closes the session when
one is present and resets the field to nil; the client connection is not
touched. -/
def Remote.close (st : RemoteState) : RemoteState :=
  if st.sessionOpen then
    { st with sessionOpen := false, openSessions := st.openSessions - 1 }
  else
    st

/-- Decoding of the `sshSession.Run` result, translated from the switch in
Remote.exec: nil means exit status 0; an `ssh.ExitError` whose message
matches the anchored status pattern yields that numeric code with the
error variable reassigned by `strconv.Atoi` (nil on success, a range error
on overflow, which the source returns at once, modelled as `.error`); an
`ssh.ExitError` that does not match keeps code 0 and keeps the error, and
control falls through to the drains; any other error returns at once. -/
def remoteDecode : Option GoError → Except GoError (Int × Option GoError)
  | none => .ok (0, none)
  | some (.exitError msg) =>
    match matchAnchoredDigits "Process exited with status " msg with
    | some ds =>
      match atoi ds with
      | some n => .ok ((n : Int), none)
      | none => .error (.other "strconv.Atoi: value out of range")
    | none => .ok (0, some (.exitError msg))
  | some (.other msg) => .error (.other msg)

/-- Remote.exec, translated from the Go source.  `args` is the variadic
parameter; the source joins it with spaces into one command line and
submits that string to the SSH session (`sshSession.Run` both starts the
remote command and waits for it, hence the `start, wait` trace before the
drains).  `defer r.close()` is modelled by applying `Remote.close` to the
state on every return after a successful open. -/
def Remote.exec (r : Remote) (w : RemoteWorld) (st : RemoteState)
    (args : List String) : RemoteOutcome :=
  let cmdLine := String.intercalate " " args
  let request := LaunchRequest.remoteCommandLine cmdLine
  match r.doOpen w st with
  | (some e, st1) => ⟨request, ⟨"", "", 0, some e⟩, none, none, [], st1⟩
  | (none, st1) =>
    -- From here on, r.close() runs on every return path (defer).
    if r.stdout.isNone && w.stdoutPipeErr.isSome then
      ⟨request, ⟨"", "", 0, w.stdoutPipeErr⟩, none, none, [], Remote.close st1⟩
    else if r.stderr.isNone && w.stderrPipeErr.isSome then
      ⟨request, ⟨"", "", 0, w.stderrPipeErr⟩, none, none, [], Remote.close st1⟩
    else
      -- sshSession.Run submits the command line and waits for completion;
      -- a configured sink receives the command's whole stream.
      let sinkOut := r.stdout.map fun _ => w.stdoutData
      let sinkErr := r.stderr.map fun _ => w.stderrData
      let trRun : List Ev := [Ev.start, Ev.wait]
      match remoteDecode w.runErr with
      | .error e => ⟨request, ⟨"", "", 0, some e⟩, sinkOut, sinkErr, trRun, Remote.close st1⟩
      | .ok (code, errAfterDecode) =>
        if r.stdout.isNone && w.stdoutReadErr.isSome then
          ⟨request, ⟨"", "", 0, w.stdoutReadErr⟩, sinkOut, sinkErr,
            trRun ++ [Ev.drainOutBegin], Remote.close st1⟩
        else
          let stdoutBuf := if r.stdout.isNone then w.stdoutData else ""
          let trOut : List Ev :=
            if r.stdout.isNone then [Ev.drainOutBegin, Ev.drainOutEnd] else []
          -- ReadAll reassigns err, so a successful capture read clears it.
          let errAfterOut := if r.stdout.isNone then none else errAfterDecode
          if r.stderr.isNone && w.stderrReadErr.isSome then
            ⟨request, ⟨"", "", 0, w.stderrReadErr⟩, sinkOut, sinkErr,
              trRun ++ trOut ++ [Ev.drainErrBegin], Remote.close st1⟩
          else
            let stderrBuf := if r.stderr.isNone then w.stderrData else ""
            let trErr : List Ev :=
              if r.stderr.isNone then [Ev.drainErrBegin, Ev.drainErrEnd] else []
            let errFinal := if r.stderr.isNone then none else errAfterOut
            ⟨request, ⟨stdoutBuf, stderrBuf, code, errFinal⟩, sinkOut, sinkErr,
              trRun ++ trOut ++ trErr, Remote.close st1⟩

/-- Remote.Run, translated from the Go source: the command and its
arguments are concatenated with spaces into one string before exec (so
the variadic join inside exec is over a single element). -/
def Remote.Run (r : Remote) (w : RemoteWorld) (st : RemoteState)
    (cmd : String) (args : List String) : RemoteOutcome :=
  r.exec w st [cmd ++ " " ++ String.intercalate " " args]

/-- Remote.Shell, translated from the Go source: the command line is the
shell path, "-c", and the caller's string wrapped in double quotes, all in
one flat string. -/
def Remote.Shell (r : Remote) (w : RemoteWorld) (st : RemoteState)
    (cmd : String) : RemoteOutcome :=
  r.exec w st [r.shellExecutable ++ " -c \"" ++ cmd ++ "\""]

/-! ### Helper predicates and concrete fixtures -/

/-- All pipe creations and capture reads of a Local call succeed (they do
in practice: the pipe calls cannot fail before Start in this usage). -/
def LocalWorld.ioOK (w : LocalWorld) : Prop :=
  w.stdoutPipeErr = none ∧ w.stderrPipeErr = none ∧
  w.stdoutReadErr = none ∧ w.stderrReadErr = none

/-- All pipe creations and capture reads of a Remote call succeed. -/
def RemoteWorld.ioOK (w : RemoteWorld) : Prop :=
  w.stdoutPipeErr = none ∧ w.stderrPipeErr = none ∧
  w.stdoutReadErr = none ∧ w.stderrReadErr = none

/-- The authenticate / dial / new-session phase of a Remote call succeeds. -/
def openOK (r : Remote) (w : RemoteWorld) : Prop :=
  (∃ a, r.getSSHAuths w.auth = .ok a) ∧ w.dial = none ∧ w.newSession = none

/-- Sample credentials for concrete evaluations. -/
def sampleCreds : Credentials :=
  { hostname := "host1", port := 22, username := "alice", password := "",
    privateKeyFilename := "/home/alice/.ssh/id_rsa" }

/-- Sample Remote executor with both streams captured. -/
def sampleRemote : Remote :=
  { shellExecutable := "/bin/sh", stdin := none, stdout := none,
    stderr := none, credentials := sampleCreds }

/-- Sample auth world: no password, no agent socket, key readable. -/
def sampleAuthWorld : AuthWorld :=
  { sshAuthSockEnv := "", dialAgent := none, agentSigners := .ok [3],
    readFile := fun _ => .ok "KEYDATA", parsePrivateKey := fun _ => .ok 7 }

/-- Sample remote world in which every step succeeds and the command exits
with status 0 after writing "ROUT" and "RERR". -/
def sampleRemoteWorld : RemoteWorld :=
  { auth := sampleAuthWorld, dial := none, newSession := none,
    stdoutPipeErr := none, stderrPipeErr := none, runErr := none,
    stdoutData := "ROUT", stderrData := "RERR",
    stdoutReadErr := none, stderrReadErr := none }

/-- State with no session and no open resources, as between calls. -/
def sampleState : RemoteState :=
  { sessionOpen := false, openConns := 0, openSessions := 0 }

/-- Sample local world in which every step succeeds and the child exits
with status 0 after writing "OUT" and "ERR". -/
def sampleLocalWorld : LocalWorld :=
  { stdoutPipeErr := none, stderrPipeErr := none, startErr := none,
    stdoutData := "OUT", stderrData := "ERR",
    stdoutReadErr := none, stderrReadErr := none, waitErr := none }

/-- Local world in which the child cannot be started. -/
def startFailWorld : LocalWorld :=
  { sampleLocalWorld with startErr := some (.other "fork/exec /bin/x: no such file or directory") }

/-- Local world in which the child terminates normally with status 6. -/
def exit6World : LocalWorld :=
  { sampleLocalWorld with waitErr := some (.exitError "exit status 6") }

/-- Remote world in which the command terminates normally with status 2. -/
def remoteExit2World : RemoteWorld :=
  { sampleRemoteWorld with runErr := some (.exitError "Process exited with status 2") }

/-! ### Shared lemmas -/

/-- Every error return of Local.exec carries exit code 0. -/
theorem localExec_code_zero_of_err (l : Local) (w : LocalWorld) (c : String)
    (a : List String) :
    (l.exec w c a).res.err ≠ none → (l.exec w c a).res.code = 0 := by
  unfold Local.exec
  repeat' split
  all_goals try simp_all

/-- A successfully decoded run result with a surviving error has code 0. -/
theorem remoteDecode_ok_err (o : Option GoError) (c : Int) (e : Option GoError) :
    remoteDecode o = .ok (c, e) → e ≠ none → c = 0 := by
  unfold remoteDecode
  repeat' split
  all_goals try simp_all

/-- Every error return of Remote.exec carries exit code 0. -/
theorem remoteExec_code_zero_of_err (r : Remote) (w : RemoteWorld)
    (st : RemoteState) (a : List String) :
    (r.exec w st a).res.err ≠ none → (r.exec w st a).res.code = 0 := by
  unfold Remote.exec
  repeat' split
  all_goals try simp_all
  next code errAfter heq _ _ =>
    intro h
    exact remoteDecode_ok_err _ _ _ heq h

/-- The launch request of a Local call is always the verbatim argv. -/
theorem localExec_request (l : Local) (w : LocalWorld) (c : String)
    (a : List String) :
    (l.exec w c a).request = .argvExec c a := by
  unfold Local.exec
  repeat' split
  all_goals rfl

/-- The launch request of a Remote call is always the space-joined flat
command line built from the variadic arguments. -/
theorem remoteExec_request (r : Remote) (w : RemoteWorld) (st : RemoteState)
    (a : List String) :
    (r.exec w st a).request = .remoteCommandLine (String.intercalate " " a) := by
  unfold Remote.exec
  repeat' split
  all_goals rfl

/-- A Remote call whose open phase fails returns that error with no code. -/
theorem remoteExec_open_fail (r : Remote) (w : RemoteWorld)
    (st st1 : RemoteState) (args : List String) (e : GoError)
    (h : r.doOpen w st = (some e, st1)) :
    (r.exec w st args).res = ⟨"", "", 0, some e⟩ := by
  unfold Remote.exec
  simp only [h]

/-- A Remote call that opens, runs and drains cleanly returns the decoded
exit code and a nil error. -/
theorem remoteExec_decoded (r : Remote) (w : RemoteWorld)
    (st : RemoteState) (args : List String) (code : Int)
    (hio : w.ioOK) (hopen : openOK r w)
    (hdec : remoteDecode w.runErr = .ok (code, none)) :
    (r.exec w st args).res.code = code ∧ (r.exec w st args).res.err = none := by
  obtain ⟨h1, h2, h3, h4⟩ := hio
  obtain ⟨⟨a, ha⟩, hdial, hns⟩ := hopen
  unfold Remote.exec Remote.doOpen
  simp only [ha, hdial, hns, h1, h2, h3, h4, hdec, Option.isSome_none,
    Bool.and_false, if_false, Bool.false_eq_true, ite_self]
  exact ⟨trivial, trivial⟩

/-- A Remote call whose execute step fails for a reason the decoder treats
as fatal returns that error with no code. -/
theorem remoteExec_decode_err (r : Remote) (w : RemoteWorld)
    (st : RemoteState) (args : List String) (e : GoError)
    (hio : w.ioOK) (hopen : openOK r w)
    (hdec : remoteDecode w.runErr = .error e) :
    (r.exec w st args).res = ⟨"", "", 0, some e⟩ := by
  obtain ⟨h1, h2, h3, h4⟩ := hio
  obtain ⟨⟨a, ha⟩, hdial, hns⟩ := hopen
  unfold Remote.exec Remote.doOpen
  simp only [ha, hdial, hns, h1, h2, h3, h4, hdec, Option.isSome_none,
    Bool.and_false, if_false, Bool.false_eq_true, ite_self]

/-! ### Claims -/

/-- Sample user database: current user "alice" with home /home/alice. -/
def sampleUserDB : UserDB :=
  { currentUser := some "alice",
    lookupHome := fun usr => if usr = "alice" then some "/home/alice" else none }

/-- User database in which no OS lookup succeeds. -/
def noUserDB : UserDB :=
  { currentUser := none, lookupHome := fun _ => none }

/-- RemoteConfig{}: every field left at its zero value. -/
def emptyRemoteConfig : RemoteConfig :=
  { shellExecutable := "", stdin := none, stdout := none, stderr := none,
    credentials := { hostname := "", port := 0, username := "", password := "",
                     privateKeyFilename := "" } }

set_option maxRecDepth 16000 in
/-- C8: NewRemote fills unspecified fields with defaults - hostname
"localhost", port 22, username the current OS user - and, only when both
password and private-key path are empty, derives the key path from the
effective account's home directory as home/.ssh/id_rsa; if the default
username or the default key path cannot be resolved from the OS, it
returns an error and no executor. -/
theorem C8_remote_construction_defaults (db : UserDB) (config : RemoteConfig) (u home : String) :
    (config.credentials.username = "" → db.currentUser = none →
      ∃ e, NewRemote db config = .error e)
    ∧ ((if config.credentials.username = "" then db.currentUser
        else some config.credentials.username) = some u →
      ((config.credentials.password = "" → config.credentials.privateKeyFilename = "" →
        db.lookupHome u = some home →
        NewRemote db config = .ok {
          shellExecutable := if config.shellExecutable.length == 0
            then DefaultShellExecutable else config.shellExecutable,
          stdin := config.stdin, stdout := config.stdout, stderr := config.stderr,
          credentials := {
            hostname := if config.credentials.hostname = ""
              then defaultSSHHostname else config.credentials.hostname,
            port := if config.credentials.port = 0
              then defaultSSHPort else config.credentials.port,
            username := u,
            password := config.credentials.password,
            privateKeyFilename :=
              filepathJoin [home, ".ssh", defaultSSHKeyfileName] } })
      ∧ (config.credentials.password = "" → config.credentials.privateKeyFilename = "" →
        db.lookupHome u = none → ∃ e, NewRemote db config = .error e)
      ∧ ((config.credentials.password ≠ "" ∨ config.credentials.privateKeyFilename ≠ "") →
        NewRemote db config = .ok {
          shellExecutable := if config.shellExecutable.length == 0
            then DefaultShellExecutable else config.shellExecutable,
          stdin := config.stdin, stdout := config.stdout, stderr := config.stderr,
          credentials := {
            hostname := if config.credentials.hostname = ""
              then defaultSSHHostname else config.credentials.hostname,
            port := if config.credentials.port = 0
              then defaultSSHPort else config.credentials.port,
            username := u,
            password := config.credentials.password,
            privateKeyFilename := config.credentials.privateKeyFilename } }))) := by
  constructor
  · intro hu hdb
    refine ⟨.other "user: lookup of current user failed", ?_⟩
    unfold NewRemote
    by_cases hhost : config.credentials.hostname = "" <;>
      by_cases hport : config.credentials.port = 0 <;>
        simp [hu, hdb, hhost, hport]
  · intro hu
    have hcases : (config.credentials.username = "" ∧ db.currentUser = some u)
        ∨ (config.credentials.username ≠ "" ∧ u = config.credentials.username) := by
      by_cases hcu : config.credentials.username = ""
      · left; exact ⟨hcu, by rwa [if_pos hcu] at hu⟩
      · right
        refine ⟨hcu, ?_⟩
        rw [if_neg hcu] at hu
        exact (Option.some_inj.mp hu).symm
    refine ⟨?_, ?_, ?_⟩
    · intro hpw hk hl
      unfold NewRemote defaultPrivateKeyFilename
      rcases hcases with ⟨hcu, hdb⟩ | ⟨hcu, hequ⟩ <;>
        by_cases hhost : config.credentials.hostname = "" <;>
          by_cases hport : config.credentials.port = 0 <;>
            simp_all
    · intro hpw hk hl
      refine ⟨.other ("user: unknown user " ++ u), ?_⟩
      unfold NewRemote defaultPrivateKeyFilename
      rcases hcases with ⟨hcu, hdb⟩ | ⟨hcu, hequ⟩ <;>
        by_cases hhost : config.credentials.hostname = "" <;>
          by_cases hport : config.credentials.port = 0 <;>
            simp_all
    · intro hor
      unfold NewRemote
      rcases hcases with ⟨hcu, hdb⟩ | ⟨hcu, hequ⟩ <;>
        by_cases hhost : config.credentials.hostname = "" <;>
          by_cases hport : config.credentials.port = 0 <;>
            rcases hor with hpw | hk <;>
              simp_all

/-- C8 witness: with the empty config and a user database knowing alice,
every default is filled as claimed; with a database that cannot resolve
the current user, construction fails; both by the theorem. -/
theorem C8_witness :
    NewRemote sampleUserDB emptyRemoteConfig = .ok {
      shellExecutable := "/bin/sh", stdin := none, stdout := none,
      stderr := none,
      credentials := { hostname := "localhost", port := 22, username := "alice",
                       password := "",
                       privateKeyFilename := "/home/alice/.ssh/id_rsa" } }
    ∧ (∃ e, NewRemote noUserDB emptyRemoteConfig = .error e) :=
  ⟨((C8_remote_construction_defaults sampleUserDB emptyRemoteConfig "alice"
      "/home/alice").2 rfl).1 rfl rfl (by decide),
   (C8_remote_construction_defaults noUserDB emptyRemoteConfig "alice" "").1
      rfl rfl⟩

/-- C1, counterexample.  The claim extends literal argument passing to
Remote.Run, but Remote.Run concatenates the command and all arguments with
single spaces into one flat command line for the remote side: the distinct
argument vectors ["a b"] and ["a", "b"] produce the identical launch
request `remoteCommandLine "echo a b"`, so the executed program's view
cannot reflect both vectors unmodified, and no argument vector is
transported at all - only a shell command-line string. -/
theorem C1_counterexample :
    (sampleRemote.Run sampleRemoteWorld sampleState "echo" ["a b"]).request
      = (sampleRemote.Run sampleRemoteWorld sampleState "echo" ["a", "b"]).request
    ∧ (sampleRemote.Run sampleRemoteWorld sampleState "echo" ["a b"]).request
      = .remoteCommandLine "echo a b"
    ∧ ["a b"] ≠ ["a", "b"] := by
  refine ⟨by decide, by decide, by decide⟩

/-- C1, amended: Local.Run and the package-level Run hand the operating
system the argument vector exactly as given (a direct argv, no shell),
with every argument - shell metacharacters included - passed through
literally; Remote.Run instead joins the command and arguments with spaces
into a single command-line string submitted to the remote side, which does
not preserve argument boundaries. -/
theorem C1_amended (cmd : String) (args : List String) (l : Local)
    (w : LocalWorld) (r : Remote) (rw : RemoteWorld) (st : RemoteState) :
    (l.Run w cmd args).request = .argvExec cmd args
    ∧ (run.Run w cmd args).request = .argvExec cmd args
    ∧ (l.Shell w cmd).request = .argvExec l.shellExecutable ["-c", cmd]
    ∧ (r.Run rw st cmd args).request
        = .remoteCommandLine (cmd ++ " " ++ String.intercalate " " args) := by
  refine ⟨localExec_request l w cmd args, localExec_request std w cmd args,
    localExec_request l w l.shellExecutable ["-c", cmd], ?_⟩
  exact remoteExec_request r rw st [cmd ++ " " ++ String.intercalate " " args]

/-- C2: on every Run or Shell call of either executor, a process (or
remote command) that runs to completion and terminates normally with
numeric status n - reported by the underlying library as the anchored
status message - yields exit code n together with a nil error, while a
process that could not be started (or an open/execute failure for a
non-exit reason) yields a non-nil error and never a decoded exit code:
the two outcomes are always distinguishable. -/
theorem C2_exit_code_vs_failure (l : Local) (w : LocalWorld)
    (cmd s msg ds : String) (args : List String) (e : GoError) (n : Nat)
    (r : Remote) (rw : RemoteWorld) (st st1 : RemoteState) :
    (w.ioOK → w.startErr = some e →
      (l.Run w cmd args).res = ⟨"", "", 0, some e⟩
      ∧ (l.Shell w s).res = ⟨"", "", 0, some e⟩)
    ∧ (w.ioOK → w.startErr = none → w.waitErr = none →
      (l.Run w cmd args).res.code = 0 ∧ (l.Run w cmd args).res.err = none
      ∧ (l.Shell w s).res.code = 0 ∧ (l.Shell w s).res.err = none)
    ∧ (w.ioOK → w.startErr = none → w.waitErr = some (.exitError msg) →
      matchAnchoredDigits "exit status " msg = some ds → atoi ds = some n →
      (l.Run w cmd args).res.code = n ∧ (l.Run w cmd args).res.err = none
      ∧ (l.Shell w s).res.code = n ∧ (l.Shell w s).res.err = none)
    ∧ (r.doOpen rw st = (some e, st1) →
      (r.Run rw st cmd args).res = ⟨"", "", 0, some e⟩
      ∧ (r.Shell rw st s).res = ⟨"", "", 0, some e⟩)
    ∧ (rw.ioOK → openOK r rw → rw.runErr = none →
      (r.Run rw st cmd args).res.code = 0 ∧ (r.Run rw st cmd args).res.err = none
      ∧ (r.Shell rw st s).res.code = 0 ∧ (r.Shell rw st s).res.err = none)
    ∧ (rw.ioOK → openOK r rw → rw.runErr = some (.exitError msg) →
      matchAnchoredDigits "Process exited with status " msg = some ds →
      atoi ds = some n →
      (r.Run rw st cmd args).res.code = n ∧ (r.Run rw st cmd args).res.err = none
      ∧ (r.Shell rw st s).res.code = n ∧ (r.Shell rw st s).res.err = none)
    ∧ (rw.ioOK → openOK r rw → rw.runErr = some (.other msg) →
      (r.Run rw st cmd args).res = ⟨"", "", 0, some (.other msg)⟩
      ∧ (r.Shell rw st s).res = ⟨"", "", 0, some (.other msg)⟩) := by
  refine ⟨?_, ?_, ?_, ?_, ?_, ?_, ?_⟩
  · rintro ⟨h1, h2, h3, h4⟩ h5
    obtain ⟨spe, sepe, se, sd, ed, sre, sere, we⟩ := w
    simp_all [Local.Run, Local.Shell, Local.exec]
  · rintro ⟨h1, h2, h3, h4⟩ h5 h6
    obtain ⟨spe, sepe, se, sd, ed, sre, sere, we⟩ := w
    simp_all [Local.Run, Local.Shell, Local.exec]
  · rintro ⟨h1, h2, h3, h4⟩ h5 h6 h7 h8
    obtain ⟨spe, sepe, se, sd, ed, sre, sere, we⟩ := w
    simp_all [Local.Run, Local.Shell, Local.exec]
  · intro h
    exact ⟨remoteExec_open_fail r rw st st1 _ e h,
      remoteExec_open_fail r rw st st1 _ e h⟩
  · intro hio hop hrun
    have hdec : remoteDecode rw.runErr = .ok (0, none) := by rw [hrun]; rfl
    have hr := remoteExec_decoded r rw st
      [cmd ++ " " ++ String.intercalate " " args] 0 hio hop hdec
    have hs := remoteExec_decoded r rw st
      [r.shellExecutable ++ " -c \"" ++ s ++ "\""] 0 hio hop hdec
    exact ⟨hr.1, hr.2, hs.1, hs.2⟩
  · intro hio hop hrun hm ha
    have hdec : remoteDecode rw.runErr = .ok ((n : Int), none) := by
      rw [hrun]; simp only [remoteDecode, hm, ha]
    have hr := remoteExec_decoded r rw st
      [cmd ++ " " ++ String.intercalate " " args] n hio hop hdec
    have hs := remoteExec_decoded r rw st
      [r.shellExecutable ++ " -c \"" ++ s ++ "\""] n hio hop hdec
    exact ⟨hr.1, hr.2, hs.1, hs.2⟩
  · intro hio hop hrun
    have hdec : remoteDecode rw.runErr = .error (.other msg) := by rw [hrun]; rfl
    exact ⟨remoteExec_decode_err r rw st _ _ hio hop hdec,
      remoteExec_decode_err r rw st _ _ hio hop hdec⟩

/-- C2 witness: a failed start returns the error with code 0; a normal
exit 6 locally and a normal exit 2 remotely return those codes with a nil
error; all by the theorem at concrete inputs. -/
theorem C2_witness :
    (run.std.Run startFailWorld "/bin/x" []).res
        = ⟨"", "", 0, some (.other "fork/exec /bin/x: no such file or directory")⟩
    ∧ ((run.std.Run exit6World "/bin/ls" []).res.code = 6
      ∧ (run.std.Run exit6World "/bin/ls" []).res.err = none)
    ∧ ((sampleRemote.Run remoteExit2World sampleState "ls" []).res.code = 2
      ∧ (sampleRemote.Run remoteExit2World sampleState "ls" []).res.err = none) := by
  refine ⟨?_, ?_, ?_⟩
  · exact ((C2_exit_code_vs_failure std startFailWorld "/bin/x" "" "" "" []
      (.other "fork/exec /bin/x: no such file or directory") 0 sampleRemote
      sampleRemoteWorld sampleState sampleState).1 ⟨rfl, rfl, rfl, rfl⟩ rfl).1
  · have h := (C2_exit_code_vs_failure std exit6World "/bin/ls" ""
      "exit status 6" "6" [] (.other "x") 6 sampleRemote sampleRemoteWorld
      sampleState sampleState).2.2.1 ⟨rfl, rfl, rfl, rfl⟩ rfl rfl
      (by decide) (by decide)
    exact ⟨h.1, h.2.1⟩
  · have h := (C2_exit_code_vs_failure std sampleLocalWorld "ls" ""
      "Process exited with status 2" "2" [] (.other "x") 2 sampleRemote
      remoteExit2World sampleState sampleState).2.2.2.2.2.1
      ⟨rfl, rfl, rfl, rfl⟩ ⟨⟨[.publicKeys 7], rfl⟩, rfl, rfl⟩ rfl
      (by decide) (by decide)
    exact ⟨h.1, h.2.1⟩

/-- C3, code bug.  NewLocal is missing the else branch that copies a
non-empty configured shell path (NewRemote has it): constructing a Local
from a config with ShellExecutable "/bin/bash" leaves the executor's
ShellExecutable equal to the zero value "", not "/bin/bash", while an
empty configured value does produce the default "/bin/sh". -/
theorem C3_newLocal_drops_configured_shell :
    (NewLocal { shellExecutable := "/bin/bash", env := [], dir := "",
                stdin := none, stdout := none, stderr := none }).shellExecutable = ""
    ∧ (NewLocal { shellExecutable := "/bin/bash", env := [], dir := "",
                  stdin := none, stdout := none, stderr := none }).shellExecutable
        ≠ "/bin/bash"
    ∧ (NewLocal { shellExecutable := "", env := [], dir := "",
                  stdin := none, stdout := none, stderr := none }).shellExecutable
        = DefaultShellExecutable := by
  refine ⟨rfl, by decide, rfl⟩

/-- The open phase either fails, leaving the session flag unchanged or
cleared and the session count untouched, or succeeds, setting the flag and
opening exactly one session. -/
theorem doOpen_cases (r : Remote) (w : RemoteWorld) (st : RemoteState) :
    ((r.doOpen w st).1 ≠ none
      ∧ ((r.doOpen w st).2.sessionOpen = st.sessionOpen
         ∨ (r.doOpen w st).2.sessionOpen = false)
      ∧ (r.doOpen w st).2.openSessions = st.openSessions)
    ∨ ((r.doOpen w st).1 = none ∧ (r.doOpen w st).2.sessionOpen = true
      ∧ (r.doOpen w st).2.openSessions = st.openSessions + 1) := by
  unfold Remote.doOpen
  repeat' split
  all_goals simp_all

/-- On every exit path of Remote.exec the session opened for the call has
been closed again and the session handle is nil. -/
theorem remoteExec_session (r : Remote) (w : RemoteWorld) (st : RemoteState)
    (args : List String) (h : st.sessionOpen = false) :
    (r.exec w st args).state.sessionOpen = false
    ∧ (r.exec w st args).state.openSessions = st.openSessions := by
  have hd := doOpen_cases r w st
  unfold Remote.exec
  split
  next e st1 heq =>
    rw [heq] at hd
    simp only [ne_eq, reduceCtorEq, not_false_iff] at hd
    rcases hd with ⟨-, hso, hos⟩ | ⟨habs, -, -⟩
    · rcases hso with hso | hso <;> simp_all
    · simp at habs
  next st1 heq =>
    rw [heq] at hd
    rcases hd with ⟨habs, -, -⟩ | ⟨-, hso, hos⟩
    · simp at habs
    · repeat' split
      all_goals simp_all [Remote.close]

/-- C4, counterexample.  A fully successful Remote call (error nil) still
ends with one SSH client connection opened during the call and never
closed: the source closes only the session (r.close), never the
ssh.Client, so the connection to the remote host is not torn down before
returning. -/
theorem C4_counterexample :
    (sampleRemote.exec sampleRemoteWorld sampleState ["ls"]).res.err = none
    ∧ (sampleRemote.exec sampleRemoteWorld sampleState ["ls"]).state.openConns
        = sampleState.openConns + 1 := by
  refine ⟨by decide, by decide⟩

/-- C4, amended: after every Remote.Run, Remote.Shell or underlying exec
call, on every exit path, any session opened for the call has been closed
and the session handle is nil again (no session persists across calls);
the SSH client connection opened for the call, however, is not torn down -
the executor never closes the client. -/
theorem C4_session_closed_each_call (r : Remote) (w : RemoteWorld)
    (st : RemoteState) (args : List String) (cmd s : String)
    (h : st.sessionOpen = false) :
    ((r.exec w st args).state.sessionOpen = false
      ∧ (r.exec w st args).state.openSessions = st.openSessions)
    ∧ ((r.Run w st cmd args).state.sessionOpen = false
      ∧ (r.Run w st cmd args).state.openSessions = st.openSessions)
    ∧ ((r.Shell w st s).state.sessionOpen = false
      ∧ (r.Shell w st s).state.openSessions = st.openSessions) :=
  ⟨remoteExec_session r w st args h,
   remoteExec_session r w st [cmd ++ " " ++ String.intercalate " " args] h,
   remoteExec_session r w st [r.shellExecutable ++ " -c \"" ++ s ++ "\""] h⟩

/-- C4 witness: the amended theorem applied to the sample executor in the
all-success world, starting from the no-resources state. -/
theorem C4_witness :
    sampleState.sessionOpen = false
    ∧ (sampleRemote.Run sampleRemoteWorld sampleState "ls" ["-l"]).state.sessionOpen = false
    ∧ (sampleRemote.Run sampleRemoteWorld sampleState "ls" ["-l"]).state.openSessions
        = sampleState.openSessions :=
  ⟨rfl,
   (C4_session_closed_each_call sampleRemote sampleRemoteWorld sampleState
      ["-l"] "ls" "" rfl).2.1.1,
   (C4_session_closed_each_call sampleRemote sampleRemoteWorld sampleState
      ["-l"] "ls" "" rfl).2.1.2⟩

/-- C5, counterexample.  With both streams captured and every step
succeeding, the Local trace drains the stdout pipe to EOF strictly before
the stderr drain begins (the two capture pipes are consumed one after the
other, not concurrently and independently), and the Remote trace waits for
command termination (inside sshSession.Run) strictly before either capture
pipe is drained, contradicting "only after both pipes are fully drained
waits for process/session termination". -/
theorem C5_counterexample :
    (run.std.exec sampleLocalWorld "/bin/ls" ["-l"]).trace
      = [.start, .drainOutBegin, .drainOutEnd, .drainErrBegin, .drainErrEnd, .wait]
    ∧ (run.std.exec sampleLocalWorld "/bin/ls" ["-l"]).trace.indexOf Ev.drainOutEnd
      < (run.std.exec sampleLocalWorld "/bin/ls" ["-l"]).trace.indexOf Ev.drainErrBegin
    ∧ (sampleRemote.exec sampleRemoteWorld sampleState ["ls"]).trace
      = [.start, .wait, .drainOutBegin, .drainOutEnd, .drainErrBegin, .drainErrEnd]
    ∧ (sampleRemote.exec sampleRemoteWorld sampleState ["ls"]).trace.indexOf Ev.wait
      < (sampleRemote.exec sampleRemoteWorld sampleState ["ls"]).trace.indexOf Ev.drainOutBegin := by
  refine ⟨by decide, by decide, by decide, by decide⟩

/-- C5, amended: when both stdout and stderr are captured and every step
succeeds, a Local call starts the child, drains the stdout pipe to EOF,
then drains the stderr pipe, and only then waits for termination; a Remote
call submits the command and waits for its termination (sshSession.Run),
and only afterwards drains the stdout pipe and then the stderr pipe.  The
two drains are sequential on both executors and the Remote wait precedes
them. -/
theorem C5_sequential_drains (l : Local) (w : LocalWorld) (cmd : String)
    (args args2 : List String) (r : Remote) (rw : RemoteWorld)
    (st : RemoteState)
    (hlo : l.stdout = none) (hle : l.stderr = none)
    (hw : w.ioOK) (hse : w.startErr = none)
    (hro : r.stdout = none) (hre : r.stderr = none)
    (hrw : rw.ioOK) (hop : openOK r rw) (hrun : rw.runErr = none) :
    (l.exec w cmd args).trace
      = [.start, .drainOutBegin, .drainOutEnd, .drainErrBegin, .drainErrEnd, .wait]
    ∧ (r.exec rw st args2).trace
      = [.start, .wait, .drainOutBegin, .drainOutEnd, .drainErrBegin, .drainErrEnd] := by
  constructor
  · obtain ⟨h1, h2, h3, h4⟩ := hw
    unfold Local.exec
    simp only [hlo, hle, h1, h2, h3, h4, hse, Option.isNone_none,
      Option.isSome_none, Bool.and_false, Bool.and_true, if_false, ite_self,
      Bool.false_eq_true, if_true, List.append_assoc, List.cons_append,
      List.nil_append, if_pos]
    repeat' split
    all_goals rfl
  · obtain ⟨h1, h2, h3, h4⟩ := hrw
    obtain ⟨⟨a, ha⟩, hdial, hns⟩ := hop
    have hdec : remoteDecode rw.runErr = .ok (0, none) := by rw [hrun]; rfl
    unfold Remote.exec Remote.doOpen
    simp only [ha, hdial, hns, h1, h2, h3, h4, hdec, hro, hre,
      Option.isNone_none, Option.isSome_none, Bool.and_false, if_false,
      Bool.false_eq_true, ite_self, if_true, List.append_assoc,
      List.cons_append, List.nil_append]

/-- C5 witness: the amended theorem applied to the standard runner and the
sample remote executor with the all-success worlds. -/
theorem C5_witness :
    (run.std.exec sampleLocalWorld "/bin/pwd" []).trace
      = [.start, .drainOutBegin, .drainOutEnd, .drainErrBegin, .drainErrEnd, .wait]
    ∧ (sampleRemote.exec sampleRemoteWorld sampleState ["pwd"]).trace
      = [.start, .wait, .drainOutBegin, .drainOutEnd, .drainErrBegin, .drainErrEnd] :=
  C5_sequential_drains std sampleLocalWorld "/bin/pwd" [] ["pwd"]
    sampleRemote sampleRemoteWorld sampleState rfl rfl
    ⟨rfl, rfl, rfl, rfl⟩ rfl rfl rfl ⟨rfl, rfl, rfl, rfl⟩
    ⟨⟨[.publicKeys 7], rfl⟩, rfl, rfl⟩ rfl

/-- C6: Local.Shell s is exactly Local.Run applied to the configured shell
interpreter with the two arguments "-c" and s: the full outcomes (stdout,
stderr, exit code, error, sinks, trace) coincide for every world, and the
launch request passes s as one opaque argument, never word-split. -/
theorem C6_shell_equals_run_dash_c (l : Local) (w : LocalWorld) (s : String) :
    l.Shell w s = l.Run w l.shellExecutable ["-c", s]
    ∧ (l.Shell w s).request = .argvExec l.shellExecutable ["-c", s] :=
  ⟨rfl, localExec_request l w l.shellExecutable ["-c", s]⟩

/-- Local executor whose stdout and stderr are caller-supplied sinks. -/
def sinkLocal : Local :=
  { std with stdout := some 1, stderr := some 2 }

/-- Remote executor whose stdout and stderr are caller-supplied sinks. -/
def sinkRemote : Remote :=
  { sampleRemote with stdout := some 1, stderr := some 2 }

/-- C7: per stream, on both executors: with a caller-supplied sink
configured, the returned string for that stream is empty and the sink
receives all of the command's bytes for that stream; with the sink unset,
the bytes are captured and returned in the result and no sink is written. -/
theorem C7_capture_vs_redirect (l : Local) (w : LocalWorld) (cmd : String)
    (args : List String) (k : Nat)
    (r : Remote) (rw : RemoteWorld) (st : RemoteState)
    (args2 : List String) :
    (l.stdout = some k → w.stderrPipeErr = none → w.startErr = none →
      (l.exec w cmd args).res.stdout = ""
      ∧ (l.exec w cmd args).sinkOut = some w.stdoutData)
    ∧ (l.stdout = none → w.ioOK → w.startErr = none → w.waitErr = none →
      (l.exec w cmd args).res.stdout = w.stdoutData
      ∧ (l.exec w cmd args).sinkOut = none)
    ∧ (l.stderr = some k → w.stdoutPipeErr = none → w.startErr = none →
      w.stdoutReadErr = none →
      (l.exec w cmd args).res.stderr = ""
      ∧ (l.exec w cmd args).sinkErr = some w.stderrData)
    ∧ (l.stderr = none → w.ioOK → w.startErr = none → w.waitErr = none →
      (l.exec w cmd args).res.stderr = w.stderrData
      ∧ (l.exec w cmd args).sinkErr = none)
    ∧ (r.stdout = some k → rw.stderrPipeErr = none → openOK r rw →
      (r.exec rw st args2).res.stdout = ""
      ∧ (r.exec rw st args2).sinkOut = some rw.stdoutData)
    ∧ (r.stdout = none → rw.ioOK → openOK r rw → rw.runErr = none →
      (r.exec rw st args2).res.stdout = rw.stdoutData
      ∧ (r.exec rw st args2).sinkOut = none)
    ∧ (r.stderr = some k → rw.stdoutPipeErr = none → rw.stdoutReadErr = none →
      openOK r rw →
      (r.exec rw st args2).res.stderr = ""
      ∧ (r.exec rw st args2).sinkErr = some rw.stderrData)
    ∧ (r.stderr = none → rw.ioOK → openOK r rw → rw.runErr = none →
      (r.exec rw st args2).res.stderr = rw.stderrData
      ∧ (r.exec rw st args2).sinkErr = none) := by
  refine ⟨?_, ?_, ?_, ?_, ?_, ?_, ?_, ?_⟩
  · intro hlo hsep hse
    unfold Local.exec
    simp only [hlo, hsep, hse, Option.isNone_some, Option.isSome_none,
      Bool.false_and, Bool.and_false, if_false, Bool.false_eq_true, Option.map_some]
    repeat' split
    all_goals simp_all
  · rintro hlo ⟨h1, h2, h3, h4⟩ hse hwe
    unfold Local.exec
    simp_all
  · intro hle hsp hse hsre
    unfold Local.exec
    simp only [hle, hsp, hse, hsre, Option.isNone_some, Option.isSome_none,
      Bool.false_and, Bool.and_false, if_false, Bool.false_eq_true, Option.map_some]
    repeat' split
    all_goals simp_all
  · rintro hle ⟨h1, h2, h3, h4⟩ hse hwe
    unfold Local.exec
    simp_all
  · rintro hro hsep ⟨⟨a, ha⟩, hdial, hns⟩
    unfold Remote.exec Remote.doOpen
    simp only [hro, hsep, ha, hdial, hns, Option.isNone_some, Option.isSome_none,
      Bool.false_and, Bool.and_false, if_false, Bool.false_eq_true, Option.map_some]
    repeat' split
    all_goals simp_all
  · rintro hro ⟨h1, h2, h3, h4⟩ ⟨⟨a, ha⟩, hdial, hns⟩ hrun
    have hdec : remoteDecode rw.runErr = .ok (0, none) := by rw [hrun]; rfl
    unfold Remote.exec Remote.doOpen
    simp only [hro, h1, h2, h3, h4, ha, hdial, hns, hdec, Option.isNone_none,
      Option.isSome_none, Bool.and_false, if_false, Bool.false_eq_true,
      ite_self, if_true]
    refine ⟨?_, ?_⟩ <;> first | rfl | trivial
  · rintro hre hsp hsre ⟨⟨a, ha⟩, hdial, hns⟩
    unfold Remote.exec Remote.doOpen
    simp only [hre, hsp, hsre, ha, hdial, hns, Option.isNone_some, Option.isSome_none,
      Bool.false_and, Bool.and_false, if_false, Bool.false_eq_true, Option.map_some]
    repeat' split
    all_goals simp_all
  · rintro hre ⟨h1, h2, h3, h4⟩ ⟨⟨a, ha⟩, hdial, hns⟩ hrun
    have hdec : remoteDecode rw.runErr = .ok (0, none) := by rw [hrun]; rfl
    unfold Remote.exec Remote.doOpen
    simp only [hre, h1, h2, h3, h4, ha, hdial, hns, hdec, Option.isNone_none,
      Option.isSome_none, Bool.and_false, if_false, Bool.false_eq_true,
      ite_self, if_true]
    refine ⟨?_, ?_⟩ <;> first | rfl | trivial

/-- C7 witness: the theorem applied to concrete sink-configured and
capture-configured executors in the all-success worlds. -/
theorem C7_witness :
    ((sinkLocal.exec sampleLocalWorld "/bin/ls" []).res.stdout = ""
      ∧ (sinkLocal.exec sampleLocalWorld "/bin/ls" []).sinkOut = some "OUT")
    ∧ ((run.std.exec sampleLocalWorld "/bin/ls" []).res.stdout = "OUT"
      ∧ (run.std.exec sampleLocalWorld "/bin/ls" []).sinkOut = none)
    ∧ ((sinkRemote.exec sampleRemoteWorld sampleState ["ls"]).res.stderr = ""
      ∧ (sinkRemote.exec sampleRemoteWorld sampleState ["ls"]).sinkErr = some "RERR")
    ∧ ((sampleRemote.exec sampleRemoteWorld sampleState ["ls"]).res.stderr = "RERR"
      ∧ (sampleRemote.exec sampleRemoteWorld sampleState ["ls"]).sinkErr = none) :=
  ⟨(C7_capture_vs_redirect sinkLocal sampleLocalWorld "/bin/ls" [] 1
      sampleRemote sampleRemoteWorld sampleState ["ls"]).1 rfl rfl rfl,
   (C7_capture_vs_redirect std sampleLocalWorld "/bin/ls" [] 1
      sampleRemote sampleRemoteWorld sampleState ["ls"]).2.1 rfl
      ⟨rfl, rfl, rfl, rfl⟩ rfl rfl,
   (C7_capture_vs_redirect std sampleLocalWorld "/bin/ls" [] 2
      sinkRemote sampleRemoteWorld sampleState ["ls"]).2.2.2.2.2.2.1 rfl rfl rfl
      ⟨⟨[.publicKeys 7], rfl⟩, rfl, rfl⟩,
   (C7_capture_vs_redirect std sampleLocalWorld "/bin/ls" [] 1
      sampleRemote sampleRemoteWorld sampleState ["ls"]).2.2.2.2.2.2.2 rfl
      ⟨rfl, rfl, rfl, rfl⟩ ⟨⟨[.publicKeys 7], rfl⟩, rfl, rfl⟩ rfl⟩

/-- Remote executor configured with a password. -/
def pwdRemote : Remote :=
  { sampleRemote with credentials := { sampleCreds with password := "sekret" } }

/-- Auth world with the agent socket environment variable set. -/
def agentAuthWorld : AuthWorld :=
  { sampleAuthWorld with sshAuthSockEnv := "/run/agent.sock" }

/-- Auth world in which reading the private key file fails. -/
def badKeyAuthWorld : AuthWorld :=
  { sampleAuthWorld with readFile := fun _ => .error (.other "open: no such file") }

/-- C9: every Remote call selects exactly one authentication strategy in
priority order - password if configured, else the agent socket when
SSH_AUTH_SOCK is set (offering every identity the agent returns), else the
configured private-key file - and a failure to read or parse the key file
is returned wrapped with the key file path; once a branch is chosen, a
failure in it is returned as an error with no fallback to another
strategy. -/
theorem C9_auth_strategy_priority (r : Remote) (w : AuthWorld) (e : GoError)
    (sgs : List Nat) (buf : String) (k : Nat) :
    (r.credentials.password ≠ "" →
      r.getSSHAuths w = .ok [.password r.credentials.password])
    ∧ (r.credentials.password = "" → w.sshAuthSockEnv ≠ "" →
      (w.dialAgent = some e → r.getSSHAuths w = .error e)
      ∧ (w.dialAgent = none → w.agentSigners = .error e → r.getSSHAuths w = .error e)
      ∧ (w.dialAgent = none → w.agentSigners = .ok sgs →
          r.getSSHAuths w = .ok [.publicKeysAgent sgs]))
    ∧ (r.credentials.password = "" → w.sshAuthSockEnv = "" →
      (w.readFile r.credentials.privateKeyFilename = .error e →
        r.getSSHAuths w = .error (.other ("run: could not read private key file \x27"
          ++ r.credentials.privateKeyFilename ++ "\x27: " ++ e.msg)))
      ∧ (w.readFile r.credentials.privateKeyFilename = .ok buf →
        (w.parsePrivateKey buf = .error e →
          r.getSSHAuths w = .error (.other ("run: could not use private key file \x27"
            ++ r.credentials.privateKeyFilename ++ "\x27: " ++ e.msg)))
        ∧ (w.parsePrivateKey buf = .ok k →
          r.getSSHAuths w = .ok [.publicKeys k]))) := by
  refine ⟨?_, ?_, ?_⟩
  · intro hp
    simp_all [Remote.getSSHAuths, bne_iff_ne]
  · intro hp hs
    refine ⟨?_, ?_, ?_⟩ <;> intro h1 <;> try intro h2
    all_goals simp_all [Remote.getSSHAuths, bne_iff_ne]
  · intro hp hs
    constructor
    · intro h1
      simp_all [Remote.getSSHAuths, bne_iff_ne]
    · intro h1
      constructor <;> intro h2 <;> simp_all [Remote.getSSHAuths, bne_iff_ne]

/-- C9 witness: the theorem applied to a password-configured executor, to
an agent world, and to a world whose key file cannot be read. -/
theorem C9_witness :
    pwdRemote.getSSHAuths sampleAuthWorld = .ok [.password "sekret"]
    ∧ sampleRemote.getSSHAuths agentAuthWorld = .ok [.publicKeysAgent [3]]
    ∧ sampleRemote.getSSHAuths badKeyAuthWorld
        = .error (.other ("run: could not read private key file \x27/home/alice/.ssh/id_rsa\x27: open: no such file")) :=
  ⟨(C9_auth_strategy_priority pwdRemote sampleAuthWorld (.other "x") [] "" 0).1
      (by decide),
   ((C9_auth_strategy_priority sampleRemote agentAuthWorld (.other "x") [3] ""
      0).2.1 rfl (by decide)).2.2 rfl rfl,
   ((C9_auth_strategy_priority sampleRemote badKeyAuthWorld
      (.other "open: no such file") [] "" 0).2.2 rfl rfl).1 rfl⟩

/-- C10: on every Run or Shell call of either executor, and on the
package-level Run and Shell, a non-nil returned error comes with exit
code 0; a nonzero exit code is only ever returned with a nil error. -/
theorem C10_error_implies_zero_code (l : Local) (w : LocalWorld) (cmd s : String)
    (args : List String) (r : Remote) (rw : RemoteWorld) (st : RemoteState) :
    ((l.Run w cmd args).res.err ≠ none → (l.Run w cmd args).res.code = 0)
    ∧ ((l.Shell w s).res.err ≠ none → (l.Shell w s).res.code = 0)
    ∧ ((run.Run w cmd args).res.err ≠ none → (run.Run w cmd args).res.code = 0)
    ∧ ((run.Shell w s).res.err ≠ none → (run.Shell w s).res.code = 0)
    ∧ ((r.Run rw st cmd args).res.err ≠ none → (r.Run rw st cmd args).res.code = 0)
    ∧ ((r.Shell rw st s).res.err ≠ none → (r.Shell rw st s).res.code = 0) :=
  ⟨localExec_code_zero_of_err l w cmd args,
   localExec_code_zero_of_err l w l.shellExecutable ["-c", s],
   localExec_code_zero_of_err std w cmd args,
   localExec_code_zero_of_err std w std.shellExecutable ["-c", s],
   remoteExec_code_zero_of_err r rw st [cmd ++ " " ++ String.intercalate " " args],
   remoteExec_code_zero_of_err r rw st [r.shellExecutable ++ " -c \"" ++ s ++ "\""]⟩

/-- C10 witness: a Local call whose child cannot be started returns a
non-nil error, and its exit code is 0, by the theorem. -/
theorem C10_witness :
    (run.std.Run startFailWorld "/bin/x" []).res.err ≠ none
    ∧ (run.std.Run startFailWorld "/bin/x" []).res.code = 0 :=
  ⟨by decide,
   (C10_error_implies_zero_code std startFailWorld "/bin/x" "" []
      sampleRemote sampleRemoteWorld sampleState).1 (by decide)⟩

end run
